import Mathlib

/-!
Shallow embedding of the TradingView news-scraper (`src/index.js`) and proofs
about the claims of its specification.

Conventions of the embedding:
* JavaScript machine time (`Date.now`, parsed `Date` values) is modelled as
  `Int` milliseconds since the epoch; `Math.floor` of a quotient of integers
  by a positive integer is `Int.fdiv`.
* A JavaScript string-or-missing value is modelled with `Option String`;
  the pervasive JS truthiness test on strings (empty string is falsy) is
  `truthyStr`.
* `Date` parsing of an arbitrary string is kept abstract: functions that
  parse timestamps take the parse result (`Option Int`, `none` = Invalid
  Date) or a parse oracle `String → Option Int` as a parameter.
* All functions are total: JS code paths that swallow exceptions are
  modelled by `match`ing on an explicit exception value.
-/

namespace Scraper

/-- JS truthiness on an optional string: `none` (null/undefined) and the
empty string are falsy; a `some` non-empty string is kept. -/
def truthyStr : Option String → Option String
  | none => none
  | some s => if s = "" then none else some s

/-- A timestamp-like JavaScript value as it can reach the recency checks:
`null`, `undefined`, the empty string, or a non-empty string carried
together with its `new Date(·)` parse result (`none` = Invalid Date). -/
inductive JSTimestamp where
  | null
  | undef
  | emptyStr
  | str (parse : Option Int)
deriving DecidableEq, Repr

/-- Milliseconds in one day, the divisor `1000 * 60 * 60 * 24` of both
recency checks in `src/index.js`. -/
def msPerDay : Int := 1000 * 60 * 60 * 24

/-- Core of the module-level check `isRecentArticle` (src/index.js:64-79)
on a parse result: `Math.floor((today - articleDate) / msPerDay) <= daysBack`.
An Invalid Date makes the JS comparison `NaN <= daysBack` false. -/
def moduleRecent (now : Int) (p : Option Int) (daysBack : Int) : Bool :=
  match p with
  | none => false
  | some ms => Int.fdiv (now - ms) msPerDay ≤ daysBack

/-- Core of the in-page helper `isRecentArticle` re-declared inside the
`page.evaluate` closure of `trySelectors` (src/index.js:237-247) on a parse
result: `(today - articleDate) / msPerDay <= maxDaysAgo` with *no* floor,
i.e. the exact comparison `now - ms ≤ maxDaysAgo * msPerDay`. -/
def inPageRecent (now : Int) (p : Option Int) (maxDaysAgo : Int) : Bool :=
  match p with
  | none => false
  | some ms => now - ms ≤ maxDaysAgo * msPerDay

/-- The module-level `isRecentArticle(timestamp, daysBack)`
(src/index.js:64-79): a falsy `timestamp` returns `false` at once;
otherwise the parsed date is compared by whole-day floor difference.
The function never throws (total by construction, as in the JS `try`). -/
def isRecentArticleJS (now : Int) (ts : JSTimestamp) (daysBack : Int) : Bool :=
  match ts with
  | .null => false
  | .undef => false
  | .emptyStr => false
  | .str p => moduleRecent now p daysBack

/-- The in-page `isRecentArticle(timestamp, maxDaysAgo)` of the
`trySelectors` closure (src/index.js:237-247): no falsy guard, so
`new Date(null)` is the epoch (0 ms), while `new Date(undefined)` and
`new Date("")` are Invalid Dates; the day difference is not floored. -/
def isRecentInPageJS (now : Int) (ts : JSTimestamp) (maxDaysAgo : Int) : Bool :=
  match ts with
  | .null => inPageRecent now (some 0) maxDaysAgo
  | .undef => false
  | .emptyStr => false
  | .str p => inPageRecent now p maxDaysAgo

theorem msPerDay_pos : (0 : Int) < msPerDay := by decide

theorem fdiv_msPerDay_le_of_le {x w : Int} (h : x ≤ w * msPerDay) :
    Int.fdiv x msPerDay ≤ w := by
  rw [Int.fdiv_eq_ediv _ (Int.le_of_lt msPerDay_pos)]
  have h2 := Int.ediv_le_ediv msPerDay_pos h
  rwa [Int.mul_ediv_cancel _ (Int.ne_of_gt msPerDay_pos)] at h2

/-- Claim C1: the module-level recency check `isRecentArticle(t, w)` returns
`true` exactly when `t` is a truthy, parseable timestamp whose whole-day
floor difference from now is at most `w`; a future timestamp (negative
difference) with a non-negative window is accepted; every invalid or missing
timestamp yields `false` (and the function is total, so no error escapes). -/
theorem isRecentArticle_spec (now w : Int) (ts : JSTimestamp) :
    (isRecentArticleJS now ts w = true ↔
      ∃ ms, ts = JSTimestamp.str (some ms) ∧ Int.fdiv (now - ms) msPerDay ≤ w) ∧
    (∀ ms, now - ms < 0 → 0 ≤ w → isRecentArticleJS now (JSTimestamp.str (some ms)) w = true) := by
  constructor
  · cases ts with
    | null => simp [isRecentArticleJS]
    | undef => simp [isRecentArticleJS]
    | emptyStr => simp [isRecentArticleJS]
    | str p =>
      cases p with
      | none => simp [isRecentArticleJS, moduleRecent]
      | some ms =>
        simp only [isRecentArticleJS, moduleRecent, decide_eq_true_eq]
        constructor
        · intro h
          exact ⟨ms, rfl, h⟩
        · rintro ⟨ms2, hms, hle⟩
          obtain rfl : ms2 = ms := by
            injection hms with h1
            injection h1 with h2
            exact h2.symm
          exact hle
  · intro ms hneg hw
    simp only [isRecentArticleJS, moduleRecent, decide_eq_true_eq]
    apply fdiv_msPerDay_le_of_le
    have hnn : (0 : Int) ≤ w * msPerDay :=
      Int.mul_nonneg hw (Int.le_of_lt msPerDay_pos)
    exact Int.le_trans (Int.le_of_lt hneg) hnn

/-- Witness for C1 at concrete inputs: a timestamp exactly one day old is
accepted with window 1, and a future timestamp is accepted. -/
theorem isRecentArticle_spec_witness :
    isRecentArticleJS 86400000 (JSTimestamp.str (some 0)) 1 = true ∧
    isRecentArticleJS 0 (JSTimestamp.str (some 5)) 1 = true :=
  ⟨(isRecentArticle_spec 86400000 1 (JSTimestamp.str (some 0))).1.mpr
      ⟨0, rfl, by decide⟩,
    (isRecentArticle_spec 0 1 (JSTimestamp.str (some 5))).2 5 (by decide) (by decide)⟩

/-- Counterexample to claim C4: the module-level check floors the day
difference while the in-page copy compares the raw quotient, so at a
timestamp 1.5 days old with window 1 the module-level check accepts and the
in-page check rejects. -/
theorem recency_checks_disagree :
    isRecentArticleJS 129600000 (JSTimestamp.str (some 0)) 1 = true ∧
    isRecentInPageJS 129600000 (JSTimestamp.str (some 0)) 1 = false := by
  constructor
  · decide
  · decide

/-- Claim C4 (amended): on truthy, parseable timestamps the in-page check is
the stricter of the two: whenever the in-page copy accepts, the module-level
`isRecentArticle` accepts as well; the module-level check accepts exactly
when `floor((now-ms)/day) ≤ w` while the in-page copy accepts exactly when
`now - ms ≤ w * day`. -/
theorem inPage_recent_implies_module_recent (now ms w : Int) :
    (isRecentInPageJS now (JSTimestamp.str (some ms)) w = true ↔
      now - ms ≤ w * msPerDay) ∧
    (isRecentArticleJS now (JSTimestamp.str (some ms)) w = true ↔
      Int.fdiv (now - ms) msPerDay ≤ w) ∧
    (isRecentInPageJS now (JSTimestamp.str (some ms)) w = true →
      isRecentArticleJS now (JSTimestamp.str (some ms)) w = true) := by
  refine ⟨?_, ?_, ?_⟩
  · simp [isRecentInPageJS, inPageRecent]
  · simp [isRecentArticleJS, moduleRecent]
  · intro h
    simp only [isRecentInPageJS, inPageRecent, decide_eq_true_eq] at h
    simp only [isRecentArticleJS, moduleRecent, decide_eq_true_eq]
    exact fdiv_msPerDay_le_of_le h

/-- Witness for the amended C4 at a concrete input: half a day old, window
1, both checks accept. -/
theorem inPage_recent_implies_module_recent_witness :
    isRecentArticleJS 43200000 (JSTimestamp.str (some 0)) 1 = true :=
  (inPage_recent_implies_module_recent 43200000 0 1).2.2 (by decide)

/-- An extracted article record as pushed by the `trySelectors` closure
(src/index.js:344-350): all five fields are strings at that point. -/
structure Article where
  headline : String
  provider : String
  timestamp : String
  link : String
  symbol : String
deriving DecidableEq, Repr

/-- The deduplication key of src/index.js:357: the template string
`` `${headline}-${timestamp}-${symbol}` ``, i.e. plain hyphen-joined
concatenation of the three fields. -/
def dedupKey (a : Article) : String :=
  a.headline ++ "-" ++ a.timestamp ++ "-" ++ a.symbol

/-- The dedup loop of src/index.js:353-362: walk the list keeping a `Set`
of seen keys; an article whose key was already seen is dropped, otherwise
it is kept and its key recorded. -/
def dedupeGo : List Article → List String → List Article
  | [], _ => []
  | a :: rest, seen =>
    if seen.contains (dedupKey a) then dedupeGo rest seen
    else a :: dedupeGo rest (dedupKey a :: seen)

/-- `uniqueArticles` as returned by `trySelectors`: dedup starting from an
empty seen-set. -/
def dedupe (l : List Article) : List Article := dedupeGo l []

/-- Declarative form of keep-first-occurrence-per-key deduplication: the
head always survives and every later article with the same `dedupKey` is
discarded. -/
def dedupeSpec : List Article → List Article
  | [] => []
  | a :: rest => a :: dedupeSpec (rest.filter (fun b => dedupKey b != dedupKey a))
termination_by l => l.length
decreasing_by
  simp only [List.length_cons]
  exact Nat.lt_succ_of_le (List.length_filter_le _ _)

theorem dedupeGo_eq (l : List Article) (seen : List String) :
    dedupeGo l seen =
      dedupeSpec (l.filter (fun a => !(seen.contains (dedupKey a)))) := by
  induction l generalizing seen with
  | nil => simp [dedupeGo, dedupeSpec]
  | cons a rest ih =>
    cases h : seen.contains (dedupKey a) with
    | true =>
      simp only [dedupeGo, h, if_true, List.filter_cons, Bool.not_true,
        Bool.false_eq_true, if_false]
      exact ih seen
    | false =>
      simp only [dedupeGo, h, Bool.false_eq_true, if_false, List.filter_cons,
        Bool.not_false, if_true]
      rw [dedupeSpec, List.filter_filter, ih (dedupKey a :: seen)]
      have hfun :
          List.filter (fun x => !(dedupKey a :: seen).contains (dedupKey x)) rest =
            List.filter (fun x => (dedupKey x != dedupKey a) &&
              !seen.contains (dedupKey x)) rest := by
        apply List.filter_congr
        intro x _
        simp only [List.contains_cons, Bool.not_or, bne]
      rw [hfun]

/-- Counterexample to claim C2: two articles whose (headline, timestamp,
symbol) triples are distinct, yet the hyphen-joined keys coincide
(`"a-b" + "-" + "c"` versus `"a" + "-" + "b-c"`), so the deduplicator drops
the second article even though no earlier article has an identical triple. -/
theorem dedupe_distinct_triples_collide :
    (Article.mk "a-b" "p" "c" "l1" "s").headline ≠
      (Article.mk "a" "q" "b-c" "l2" "s").headline ∧
    (Article.mk "a-b" "p" "c" "l1" "s").timestamp ≠
      (Article.mk "a" "q" "b-c" "l2" "s").timestamp ∧
    dedupe [Article.mk "a-b" "p" "c" "l1" "s", Article.mk "a" "q" "b-c" "l2" "s"] =
      [Article.mk "a-b" "p" "c" "l1" "s"] := by
  refine ⟨by decide, by decide, by decide⟩

/-- Claim C2 (amended): the deduplication step keeps first-seen order and
drops a later article exactly when an earlier article has the same
hyphen-joined key string `headline-timestamp-symbol`; articles with an
identical (headline, timestamp, symbol) triple always share that key (but
distinct triples may also collide when hyphens blur the field boundaries). -/
theorem dedupe_by_joined_key :
    (∀ l : List Article, dedupe l = dedupeSpec l) ∧
    (∀ a b : Article, a.headline = b.headline → a.timestamp = b.timestamp →
      a.symbol = b.symbol → dedupKey a = dedupKey b) := by
  constructor
  · intro l
    have h := dedupeGo_eq l []
    simpa using h
  · intro a b h1 h2 h3
    simp only [dedupKey, h1, h2, h3]

/-- Witness for the amended C2 at concrete inputs: a repeated key is
dropped, order of survivors is first-seen, and equal triples share a key. -/
theorem dedupe_by_joined_key_witness :
    dedupe [Article.mk "h" "p" "t" "l1" "s", Article.mk "x" "q" "u" "l2" "s",
        Article.mk "h" "r" "t" "l3" "s"] =
      dedupeSpec [Article.mk "h" "p" "t" "l1" "s", Article.mk "x" "q" "u" "l2" "s",
        Article.mk "h" "r" "t" "l3" "s"] ∧
    dedupKey (Article.mk "h" "p" "t" "l1" "s") = dedupKey (Article.mk "h" "r" "t" "l3" "s") :=
  ⟨dedupe_by_joined_key.1 _,
    dedupe_by_joined_key.2 (Article.mk "h" "p" "t" "l1" "s")
      (Article.mk "h" "r" "t" "l3" "s") rfl rfl rfl⟩

/-- `pat` is an initial run of `hay` (character lists). -/
def charsLeadWith : List Char → List Char → Bool
  | [], _ => true
  | _ :: _, [] => false
  | p :: ps, h :: hs => p == h && charsLeadWith ps hs

/-- `hay` has `pat` as a contiguous run somewhere (character lists);
models JS `String.prototype.includes`. -/
def charsContain (pat : List Char) : List Char → Bool
  | [] => pat.isEmpty
  | c :: rest => charsLeadWith pat (c :: rest) || charsContain pat rest

/-- JS `hay.includes(pat)`. -/
def strContains (hay pat : String) : Bool := charsContain pat.data hay.data

/-- JS `s.toLowerCase()` (restricted to character-wise lowering). -/
def jsToLower (s : String) : String := String.mk (s.data.map Char.toLower)

/-- JS `s.trim()`: strip leading and trailing whitespace. -/
def jsTrim (s : String) : String :=
  String.mk (((s.data.dropWhile Char.isWhitespace).reverse.dropWhile Char.isWhitespace).reverse)

/-- The restricted-content phrases of `extractArticleContent`
(src/index.js:458-465 and 513-520, the two lists are identical). -/
def restrictedPhrasesContent : List String :=
  ["sign in to read exclusive news",
   "login or create a forever free account",
   "subscribe to read this article",
   "this article is reserved for our members",
   "premium content",
   "requires subscription"]

/-- Case-insensitive restricted-phrase test used on extracted body text. -/
def containsRestrictedContent (s : String) : Bool :=
  restrictedPhrasesContent.any (fun ph => strContains (jsToLower s) ph)

/-- Outcome of one candidate content selector in `extractArticleContent`:
the selector either never appears (`waitForSelector` timeout / `$eval`
failure, swallowed by the `catch`) or yields an element whose `innerText`
is read. -/
inductive SelectorResult where
  | absent
  | found (text : String)
deriving DecidableEq, Repr

/-- Result of the specific-selector loop of `extractArticleContent`
(src/index.js:452-483): an early `return null`, an early successful
`return content`, or falling through to the generic fallback. -/
inductive SpecificOutcome where
  | retNull
  | retContent (s : String)
  | exhausted
deriving DecidableEq, Repr

/-- The specific-selector loop (src/index.js:452-483): per selector, a
failure is swallowed and the next is tried; found text is trimmed and must
have length `> 50`; qualifying text carrying a restricted phrase returns
`null` for the whole extraction, otherwise the text is returned. -/
def specificPhase : List SelectorResult → SpecificOutcome
  | [] => .exhausted
  | .absent :: rest => specificPhase rest
  | .found t :: rest =>
    let content := jsTrim t
    if content.length > 50 then
      if containsRestrictedContent content then .retNull
      else .retContent content
    else specificPhase rest

/-- The generic-container fallback loop inside `page.evaluate`
(src/index.js:487-509): each candidate container is either absent (`none`)
or yields its `innerText`; the first whose trimmed text has length `> 100`
is returned. -/
def fallbackFind : List (Option String) → Option String
  | [] => none
  | none :: rest => fallbackFind rest
  | some t :: rest =>
    let text := jsTrim t
    if text.length > 100 then some text else fallbackFind rest

/-- `extractArticleContent` (src/index.js:440-536): gate on the login
check, then the specific-selector loop, then the generic fallback followed
by a final restricted-phrase check. -/
def extractArticleContent (requiresLogin : Bool) (specific : List SelectorResult)
    (fallback : List (Option String)) : Option String :=
  if requiresLogin then none
  else
    match specificPhase specific with
    | .retNull => none
    | .retContent s => some s
    | .exhausted =>
      match fallbackFind fallback with
      | none => none
      | some s => if containsRestrictedContent s then none else some s

/-- Claim C5: in the specific-selector phase, trimmed text of length at
most 50 is never accepted and the next selector is tried (so a lone
40-character body yields `null` overall); trimmed text longer than 50 that
carries a restricted phrase makes the extractor return `null` at once;
clean text longer than 50 is returned trimmed and otherwise unchanged. -/
theorem extractContent_specific_phase_spec (t : String) (rest : List SelectorResult) :
    ((jsTrim t).length ≤ 50 →
      specificPhase (SelectorResult.found t :: rest) = specificPhase rest) ∧
    ((jsTrim t).length > 50 → containsRestrictedContent (jsTrim t) = true →
      specificPhase (SelectorResult.found t :: rest) = SpecificOutcome.retNull) ∧
    ((jsTrim t).length > 50 → containsRestrictedContent (jsTrim t) = false →
      specificPhase (SelectorResult.found t :: rest) =
        SpecificOutcome.retContent (jsTrim t)) ∧
    (∀ u : String, (jsTrim u).length = 40 →
      extractArticleContent false [SelectorResult.found u] [some u] = none) := by
  refine ⟨?_, ?_, ?_, ?_⟩
  · intro h
    simp only [specificPhase]
    rw [if_neg (Nat.not_lt.mpr h)]
  · intro h1 h2
    simp only [specificPhase]
    rw [if_pos h1, if_pos h2]
  · intro h1 h2
    simp only [specificPhase]
    rw [if_pos h1, if_neg (by simp [h2])]
  · intro u hu
    simp [extractArticleContent, specificPhase, fallbackFind, hu]

/-- Witness for C5 at concrete inputs: a clean 60-character body is
returned trimmed, a 60-character body containing "premium content" returns
`null` for the whole extraction, and a lone 40-character body yields
`null`. -/
theorem extractContent_specific_phase_spec_witness :
    specificPhase [SelectorResult.found
        "bbbbbbbbbbbbbbbbbbbbbbbbbbbbbbbbbbbbbbbbbbbbbbbbbbbbbbbbbbbb"] =
      SpecificOutcome.retContent
        "bbbbbbbbbbbbbbbbbbbbbbbbbbbbbbbbbbbbbbbbbbbbbbbbbbbbbbbbbbbb" ∧
    specificPhase [SelectorResult.found
        "premium content aaaaaaaaaaaaaaaaaaaaaaaaaaaaaaaaaaaaaaaaaaaa"] =
      SpecificOutcome.retNull ∧
    extractArticleContent false
      [SelectorResult.found "aaaaaaaaaaaaaaaaaaaaaaaaaaaaaaaaaaaaaaaa"]
      [some "aaaaaaaaaaaaaaaaaaaaaaaaaaaaaaaaaaaaaaaa"] = none := by
  refine ⟨?_, ?_, ?_⟩
  · have h := (extractContent_specific_phase_spec
      "bbbbbbbbbbbbbbbbbbbbbbbbbbbbbbbbbbbbbbbbbbbbbbbbbbbbbbbbbbbb" []).2.2.1
      (by decide) (by decide)
    exact h.trans (by decide)
  · exact (extractContent_specific_phase_spec
      "premium content aaaaaaaaaaaaaaaaaaaaaaaaaaaaaaaaaaaaaaaaaaaa" []).2.1
      (by decide) (by decide)
  · exact (extractContent_specific_phase_spec "x" []).2.2.2
      "aaaaaaaaaaaaaaaaaaaaaaaaaaaaaaaaaaaaaaaa" (by decide)

/-- A DOM element as far as the Access Gate inspects one: tag name, the
`class` and `id` attribute strings, presence of the `data-login-required`
attribute, `innerText`, and whether the element participates in layout
(`offsetParent !== null`). -/
structure Element where
  tag : String
  classAttr : String
  idAttr : String
  dataLoginRequired : Bool
  innerText : String
  visible : Bool
deriving DecidableEq, Repr

/-- The allow-list of `checkIfArticleRequiresLogin` (src/index.js:374-379). -/
def knownFreeProviders : List String :=
  ["moneycontrol", "reuters", "business standard", "investing.com"]

/-- First `page.evaluate` of the gate (src/index.js:382-385): the
`innerText` of the first element whose class attribute has "provider" as a
run, lower-cased and trimmed, defaulting to the empty string. -/
def providerTextOf (doc : List Element) : String :=
  match doc.find? (fun el => strContains el.classAttr "provider") with
  | some el => jsTrim (jsToLower el.innerText)
  | none => ""

/-- Paywall phrases of the visible-text scan (src/index.js:396-406). -/
def loginIndicatorPhrases : List String :=
  ["sign in to read", "login to continue", "subscribe to read",
   "premium content", "members only", "requires subscription",
   "sign up to continue reading", "paywall", "membership required"]

/-- Second `page.evaluate` of the gate (src/index.js:395-415): among
visible `div`/`section`/`article`/`header` elements, does any `innerText`
carry one of the paywall phrases (case-insensitively)? -/
def loginIndicatorsOf (doc : List Element) : Bool :=
  (doc.filter (fun el =>
      (el.tag == "div" || el.tag == "section" || el.tag == "article" ||
        el.tag == "header") && el.visible)).any
    (fun el => loginIndicatorPhrases.any
      (fun t => strContains (jsToLower el.innerText) t))

/-- Third `page.evaluate` of the gate (src/index.js:418-431): is any
structural paywall/login/subscription pattern present anywhere in the
document, regardless of visibility? -/
def hasLoginElementsOf (doc : List Element) : Bool :=
  doc.any (fun el =>
    strContains el.classAttr "paywall" || strContains el.classAttr "subscription" ||
    strContains el.classAttr "premium" || strContains el.idAttr "login" ||
    strContains el.classAttr "sign-in" ||
    (el.tag == "button" && strContains el.classAttr "subscribe") ||
    strContains el.classAttr "member-only" || el.dataLoginRequired)

/-- Body of `checkIfArticleRequiresLogin` (src/index.js:371-438) when no
evaluation throws: allow-list short-circuit, then OR of the two scans. -/
def checkIfArticleRequiresLogin (doc : List Element) : Bool :=
  let providerText := providerTextOf doc
  if knownFreeProviders.any (fun p => strContains providerText p) then false
  else loginIndicatorsOf doc || hasLoginElementsOf doc

/-- `checkIfArticleRequiresLogin` with its surrounding `try`/`catch`:
`exc` carries the message of a rejection thrown by any of the three page
evaluations; the `catch` logs it and returns `false`. -/
def checkIfArticleRequiresLoginRun (doc : List Element) (exc : Option String) : Bool :=
  match exc with
  | some _ => false
  | none => checkIfArticleRequiresLogin doc

/-- Claim C6: when the provider text carries a known-open provider name
the gate returns `false` whatever the rest of the document holds (so the
two paywall scans cannot influence the result); otherwise the result is
exactly the OR of the visible-text scan and the structural scan. -/
theorem accessGate_allowlist_spec (doc : List Element) :
    (knownFreeProviders.any (fun p => strContains (providerTextOf doc) p) = true →
      checkIfArticleRequiresLogin doc = false) ∧
    (knownFreeProviders.any (fun p => strContains (providerTextOf doc) p) = false →
      checkIfArticleRequiresLogin doc =
        (loginIndicatorsOf doc || hasLoginElementsOf doc)) := by
  constructor
  · intro h
    simp [checkIfArticleRequiresLogin, h]
  · intro h
    simp [checkIfArticleRequiresLogin, h]

/-- Witness for C6: a document whose provider element reads "Reuters News"
and which also holds a paywall-classed element; the gate returns `false`
although the structural scan alone would report `true`. -/
theorem accessGate_allowlist_spec_witness :
    checkIfArticleRequiresLogin
      [Element.mk "span" "provider-xyz" "" false "Reuters News" true,
       Element.mk "div" "paywall-banner" "" false "subscribe now" true] = false ∧
    hasLoginElementsOf
      [Element.mk "span" "provider-xyz" "" false "Reuters News" true,
       Element.mk "div" "paywall-banner" "" false "subscribe now" true] = true :=
  ⟨(accessGate_allowlist_spec
      [Element.mk "span" "provider-xyz" "" false "Reuters News" true,
       Element.mk "div" "paywall-banner" "" false "subscribe now" true]).1
      (by decide),
    by decide⟩

/-- Claim C9: whatever exception any of the gate's page evaluations throws,
the surrounding `catch` turns it into the fail-open answer `false`; absent
an exception the gate computes its heuristic answer. `checkIfArticleRequiresLoginRun`
is a total function, so no exception reaches the caller. -/
theorem accessGate_failOpen :
    (∀ (doc : List Element) (msg : String),
      checkIfArticleRequiresLoginRun doc (some msg) = false) ∧
    (∀ doc : List Element,
      checkIfArticleRequiresLoginRun doc none = checkIfArticleRequiresLogin doc) :=
  ⟨fun _ _ => rfl, fun _ => rfl⟩

/-- The default of `CONFIG.wpApiUrl` (src/index.js:9-11). -/
def defaultWpApiUrl : String := "https://profitbooking.in/wp-json/scraper/v1/tradingview"

/-- `CONFIG.wpApiUrl` (src/index.js:8-14): `process.env.WP_API_URL ||
default`, where an unset or empty environment variable falls back to the
hardcoded default endpoint. -/
def configWpApiUrl (env : Option String) : String :=
  match env with
  | none => defaultWpApiUrl
  | some s => if s = "" then defaultWpApiUrl else s

/-- Observable outcome of one `storeInWordPress` call: whether the POST to
the publishing endpoint was attempted, and the returned boolean. -/
structure StoreAttempt where
  postAttempted : Bool
  returned : Bool
deriving DecidableEq, Repr

/-- `storeInWordPress` (src/index.js:104-144): a falsy `CONFIG.wpApiUrl`
skips storage returning `true`; a timestamp failing the 1-day window
returns `false` with no POST; otherwise the POST is made and the `catch`
turns a request failure into `false`. `postSucceeds` abstracts the axios
call's outcome. -/
def storeInWordPress (envUrl : Option String) (now : Int) (ts : JSTimestamp)
    (postSucceeds : Bool) : StoreAttempt :=
  if configWpApiUrl envUrl = "" then ⟨false, true⟩
  else if !(isRecentArticleJS now ts 1) then ⟨false, false⟩
  else ⟨true, postSucceeds⟩

theorem configWpApiUrl_ne_empty (env : Option String) : configWpApiUrl env ≠ "" := by
  match env with
  | none => simp [configWpApiUrl, defaultWpApiUrl]
  | some s =>
    simp only [configWpApiUrl]
    by_cases h : s = ""
    · simp [h, defaultWpApiUrl]
    · simp [h]

/-- Claim C7: an article whose timestamp fails the 1-day storage window is
never submitted — `storeInWordPress` returns `false` without attempting
the POST — and the POST is only attempted when the window check passes. -/
theorem storeInWordPress_recency_gate (env : Option String) (now : Int)
    (ts : JSTimestamp) (p : Bool) :
    (isRecentArticleJS now ts 1 = false →
      storeInWordPress env now ts p = ⟨false, false⟩) ∧
    ((storeInWordPress env now ts p).postAttempted = true →
      isRecentArticleJS now ts 1 = true) := by
  constructor
  · intro h
    simp [storeInWordPress, configWpApiUrl_ne_empty env, h]
  · intro h
    by_cases hr : isRecentArticleJS now ts 1 = true
    · exact hr
    · exfalso
      rw [Bool.not_eq_true] at hr
      simp [storeInWordPress, configWpApiUrl_ne_empty env, hr] at h

/-- Witness for C7: a two-day-old timestamp under the 1-day window is not
posted and reported as not stored; a fresh timestamp leads to a POST. -/
theorem storeInWordPress_recency_gate_witness :
    storeInWordPress none 172800000 (JSTimestamp.str (some 0)) true =
      ⟨false, false⟩ ∧
    isRecentArticleJS 0 (JSTimestamp.str (some 0)) 1 = true :=
  ⟨(storeInWordPress_recency_gate none 172800000 (JSTimestamp.str (some 0)) true).1
      (by decide),
    (storeInWordPress_recency_gate none 0 (JSTimestamp.str (some 0)) true).2
      (by decide)⟩

/-- Counterexample to claim C10: with the publishing URL absent from the
environment, a recent article is still POSTed (to the hardcoded default
endpoint) — storage is not skipped. -/
theorem store_posts_default_when_env_absent :
    storeInWordPress none 0 (JSTimestamp.str (some 0)) true = ⟨true, true⟩ := by
  decide

/-- Claim C10 (amended): when the publishing endpoint URL is absent from
the environment, `CONFIG.wpApiUrl` falls back to the hardcoded default
endpoint, so the skip-storage branch (which requires an empty effective
URL) is unreachable and a recent article is POSTed to the default
endpoint; the run does not fail either way, since `storeInWordPress` is
total. -/
theorem store_default_url_spec (env : Option String) (now : Int)
    (ts : JSTimestamp) (p : Bool) :
    configWpApiUrl env ≠ "" ∧
    configWpApiUrl none = defaultWpApiUrl ∧
    (isRecentArticleJS now ts 1 = true →
      storeInWordPress none now ts p = ⟨true, p⟩) := by
  refine ⟨configWpApiUrl_ne_empty env, rfl, ?_⟩
  intro h
  simp [storeInWordPress, configWpApiUrl_ne_empty (none : Option String), h]

/-- Witness for the amended C10: with no environment URL a fresh article
is POSTed. -/
theorem store_default_url_spec_witness :
    storeInWordPress none 43200000 (JSTimestamp.str (some 0)) false =
      ⟨true, false⟩ :=
  (store_default_url_spec none 43200000 (JSTimestamp.str (some 0)) false).2.2
    (by decide)

/-- One entry of the list built by `getStockUrlsFromSheet`
(src/index.js:212-219): cells read by computed index may be absent
(`undefined`) when a row is short. -/
structure StockEntry where
  symbol : Option String
  stockName : Option String
  link : Option String
deriving DecidableEq, Repr

/-- The message of the configuration error thrown at src/index.js:182-185. -/
def requiredColsMsg : String :=
  "Required columns (Scrap_Link, Symbol, Stock name) not found in the Google Sheet."

/-- The message of the error thrown at src/index.js:168-170. -/
def emptyHeadersMsg : String :=
  "Could not read headers from the Google Sheet. Make sure the sheet is not empty."

/-- Body of the `try` block of `getStockUrlsFromSheet`
(src/index.js:158-222) over an abstract sheet grid (list of rows of
cells): read the header row, locate the three required columns (an
`indexOf` of `-1` raises the configuration error), fetch the column slice
`startCol..endCol` for all rows, drop the header row, build entries by
relative index, and keep only rows with a truthy link. -/
def getStockUrlsCore (sheet : List (List String)) :
    Except String (List StockEntry) :=
  let headers := (sheet.head?).getD []
  if headers.isEmpty then .error emptyHeadersMsg
  else
    match List.indexOf? "Scrap_Link" headers, List.indexOf? "Symbol" headers,
        List.indexOf? "Stock name" headers with
    | some scrapIdx, some symIdx, some nameIdx =>
      let startCol := min symIdx (min nameIdx scrapIdx)
      let endCol := max symIdx (max nameIdx scrapIdx)
      let rows := sheet.map (fun r => (r.drop startCol).take (endCol - startCol + 1))
      if rows.isEmpty then .ok []
      else
        .ok (((rows.drop 1).map (fun row =>
          StockEntry.mk (row.get? (symIdx - startCol)) (row.get? (nameIdx - startCol))
            (row.get? (scrapIdx - startCol)))).filter
          (fun e => (truthyStr e.link).isSome))
    | _, _, _ => .error requiredColsMsg

/-- `getStockUrlsFromSheet` as its callers observe it: the `catch` block
(src/index.js:223-231) logs any error thrown inside the `try` — including
the missing-column configuration error — and returns the empty list. -/
def getStockUrlsFromSheet (sheet : List (List String)) : List StockEntry :=
  match getStockUrlsCore sheet with
  | .error _ => []
  | .ok l => l

/-- How far the run of `scrapeTradingViewNews` gets with respect to
navigation (src/index.js:567-584): an empty URL list exits cleanly before
any `page.goto`; otherwise the per-stock navigation loop starts. -/
inductive RunOutcome where
  | cleanExit
  | navigates (targets : List StockEntry)
deriving DecidableEq, Repr

/-- The start of `scrapeTradingViewNews` (src/index.js:567-584): load the
stock URLs and either exit cleanly on an empty list or proceed to
navigation. -/
def scrapeRunStart (sheet : List (List String)) : RunOutcome :=
  let stockUrls := getStockUrlsFromSheet sheet
  if stockUrls.isEmpty then .cleanExit else .navigates stockUrls

/-- Claim C3 is contradicted by the code: on a sheet missing the `Symbol`
header the `try` body does raise the configuration error, but the `catch`
inside `getStockUrlsFromSheet` swallows it and returns the empty list, so
the run exits cleanly through the "No stock URLs found" path instead of
aborting with a configuration error. (No navigation occurs either way.) -/
theorem missingSymbolColumn_clean_exit :
    getStockUrlsCore [["Scrap_Link", "Stock name"],
      ["https://example.com/news", "Acme Corp"]] = .error requiredColsMsg ∧
    getStockUrlsFromSheet [["Scrap_Link", "Stock name"],
      ["https://example.com/news", "Acme Corp"]] = [] ∧
    scrapeRunStart [["Scrap_Link", "Stock name"],
      ["https://example.com/news", "Acme Corp"]] = RunOutcome.cleanExit := by
  refine ⟨by rfl, by decide, by decide⟩

/-- First truthy value of a JS `||` chain over string-or-missing values,
`none` when every link is falsy. -/
def firstTruthy (l : List (Option String)) : Option String :=
  (l.filterMap truthyStr).head?

/-- A sub-element located by a headline selector inside an article card
(src/index.js:256-265): the two attributes tried before the trimmed
`textContent`. -/
structure SubEl where
  tooltipAttr : Option String
  titleAttr : Option String
  text : Option String
deriving DecidableEq, Repr

/-- A sub-element located by a time selector (src/index.js:314-324):
`event-time`, `datetime` and `data-timestamp` attributes tried before the
trimmed `textContent`. -/
structure TimeEl where
  eventTime : Option String
  datetime : Option String
  dataTimestamp : Option String
  text : Option String
deriving DecidableEq, Repr

/-- An article-card element of the listing page as `trySelectors` reads
it: per headline selector the found sub-element (if any), the card's own
attributes/text, per provider selector the found element's `textContent`,
the three link sources, per time selector the found sub-element, and the
`src` values of the card's images. -/
structure Card where
  subsHeadline : List (Option SubEl)
  own : SubEl
  subsProvider : List (Option String)
  ownHref : Option String
  descendantAnchorHref : Option String
  ancestorAnchorHref : Option String
  subsTime : List (Option TimeEl)
  imgSrcs : List String
deriving DecidableEq, Repr

/-- Resolution of one headline sub-element (src/index.js:259-262):
tooltip attribute, then `title`, then trimmed `textContent`. -/
def resolveSub (e : SubEl) : Option String :=
  firstTruthy [e.tooltipAttr, e.titleAttr, e.text.map jsTrim]

/-- Headline resolution (src/index.js:255-274): first truthy sub-element
resolution across the headline selectors, else the card's own
attributes/text. -/
def resolveHeadline (c : Card) : Option String :=
  match (c.subsHeadline.filterMap (fun o => o.bind resolveSub)).head? with
  | some h => some h
  | none => resolveSub c.own

/-- Provider resolution (src/index.js:296-303): first truthy trimmed
`textContent` across the provider selectors. -/
def resolveProvider (subs : List (Option String)) : Option String :=
  firstTruthy (subs.map (fun o => o.map jsTrim))

/-- Link resolution (src/index.js:306-310): `element.href`, else the first
descendant anchor's `href`, else the nearest ancestor anchor's `href`. -/
def resolveLink (c : Card) : Option String :=
  firstTruthy [c.ownHref, c.descendantAnchorHref, c.ancestorAnchorHref]

/-- Resolution of one time sub-element (src/index.js:317-321). -/
def resolveTime (t : TimeEl) : Option String :=
  firstTruthy [t.eventTime, t.datetime, t.dataTimestamp, t.text.map jsTrim]

/-- Timestamp resolution (src/index.js:313-324): first truthy time
sub-element resolution across the time selectors. -/
def resolveTimestamp (c : Card) : Option String :=
  (c.subsTime.filterMap (fun o => o.bind resolveTime)).head?

/-- The restricted-headline phrases of the listing extraction
(src/index.js:277-285). -/
def restrictedIndicators : List String :=
  ["sign in to read exclusive news", "login to read", "subscribe to read",
   "premium content", "members only", "exclusive news", "requires subscription"]

/-- Case-insensitive restricted-phrase test on a headline
(src/index.js:287-293). -/
def headlineRestricted (h : String) : Bool :=
  restrictedIndicators.any (fun i => strContains (jsToLower h) i)

/-- The trailing segment of a character list after its last `/`, when one
exists. -/
def lastSegAfterSlash : List Char → Option (List Char)
  | [] => none
  | c :: rest =>
    match lastSegAfterSlash rest with
    | some seg => some seg
    | none => if c == '/' then some rest else none

/-- `tail` is a final run of `hay` (character lists). -/
def charsEndWith (tail hay : List Char) : Bool :=
  charsLeadWith tail.reverse hay.reverse

/-- The regex match of src/index.js:335-336: capture the non-empty
segment between the last `/` and a final `.svg`, with hyphens removed. -/
def svgMatch (src : String) : Option String :=
  match lastSegAfterSlash src.data with
  | none => none
  | some seg =>
    if charsEndWith ".svg".data seg && decide (4 < seg.length) then
      some (String.mk ((seg.take (seg.length - 4)).filter (fun ch => ch != '-')))
    else none

/-- Symbol override from SVG icon images (src/index.js:329-342): codes of
the `.svg`-sourced images, dropped when falsy, joined when any remain. -/
def cardSymbolOf (c : Card) : Option String :=
  let svgSrcs := c.imgSrcs.filter (fun s => strContains s ".svg")
  let codes := svgSrcs.filterMap (fun s => truthyStr (svgMatch s))
  if codes.isEmpty then none else some (String.join codes)

/-- Processing of one article card by the `forEach` body of
`trySelectors` (src/index.js:253-351): `none` when the card is rejected
(falsy headline, restricted headline, no link, falsy or stale timestamp),
otherwise the pushed record. `parse` abstracts `new Date(·)` on the
resolved timestamp string; `now` is the evaluation time. -/
def extractCard (parse : String → Option Int) (now : Int) (fallbackSymbol : String)
    (c : Card) : Option Article :=
  match resolveHeadline c with
  | none => none
  | some headline =>
    if headlineRestricted headline then none
    else
      match resolveLink c with
      | none => none
      | some link =>
        match resolveTimestamp c with
        | none => none
        | some ts =>
          if inPageRecent now (parse ts) 3 then
            some (Article.mk headline ((resolveProvider c.subsProvider).getD "Unknown")
              ts link ((truthyStr (cardSymbolOf c)).getD fallbackSymbol))
          else none

/-- The whole `page.evaluate` body of `trySelectors`
(src/index.js:234-369): extract each surviving card, then dedupe. -/
def trySelectors (parse : String → Option Int) (now : Int) (symbol : String)
    (cards : List Card) : List Article :=
  dedupe (cards.filterMap (extractCard parse now symbol))

theorem truthyStr_ne_empty {o : Option String} {s : String}
    (h : truthyStr o = some s) : s ≠ "" := by
  match o with
  | none => simp [truthyStr] at h
  | some t =>
    simp only [truthyStr] at h
    by_cases ht : t = ""
    · simp [ht] at h
    · rw [if_neg ht] at h
      injection h with h1
      exact h1 ▸ ht

theorem firstTruthy_ne_empty {l : List (Option String)} {s : String}
    (h : firstTruthy l = some s) : s ≠ "" := by
  unfold firstTruthy at h
  obtain ⟨ys, hys⟩ := List.head?_eq_some_iff.mp h
  have hmem : s ∈ l.filterMap truthyStr := by
    rw [hys]
    exact List.mem_cons_self _ _
  obtain ⟨o, _, ho⟩ := List.mem_filterMap.mp hmem
  exact truthyStr_ne_empty ho

theorem resolveSub_ne_empty {e : SubEl} {s : String}
    (h : resolveSub e = some s) : s ≠ "" := firstTruthy_ne_empty h

theorem resolveHeadline_ne_empty {c : Card} {s : String}
    (h : resolveHeadline c = some s) : s ≠ "" := by
  unfold resolveHeadline at h
  cases hh : (c.subsHeadline.filterMap (fun o => o.bind resolveSub)).head? with
  | some v =>
    rw [hh] at h
    injection h with h1
    obtain ⟨ys, hys⟩ := List.head?_eq_some_iff.mp hh
    have hmem : v ∈ c.subsHeadline.filterMap (fun o => o.bind resolveSub) := by
      rw [hys]
      exact List.mem_cons_self _ _
    obtain ⟨o, _, ho⟩ := List.mem_filterMap.mp hmem
    cases o with
    | none => simp at ho
    | some e => exact h1 ▸ resolveSub_ne_empty ho
  | none =>
    rw [hh] at h
    exact resolveSub_ne_empty h

theorem resolveTimestamp_ne_empty {c : Card} {s : String}
    (h : resolveTimestamp c = some s) : s ≠ "" := by
  unfold resolveTimestamp at h
  obtain ⟨ys, hys⟩ := List.head?_eq_some_iff.mp h
  have hmem : s ∈ c.subsTime.filterMap (fun o => o.bind resolveTime) := by
    rw [hys]
    exact List.mem_cons_self _ _
  obtain ⟨o, _, ho⟩ := List.mem_filterMap.mp hmem
  cases o with
  | none => simp at ho
  | some t => exact firstTruthy_ne_empty ho

theorem mem_of_mem_dedupeGo {a : Article} (l : List Article) :
    ∀ seen : List String, a ∈ dedupeGo l seen → a ∈ l := by
  induction l with
  | nil =>
    intro seen h
    simp [dedupeGo] at h
  | cons b rest ih =>
    intro seen h
    simp only [dedupeGo] at h
    by_cases hb : seen.contains (dedupKey b) = true
    · rw [if_pos hb] at h
      exact List.mem_cons_of_mem b (ih seen h)
    · rw [if_neg hb] at h
      rcases List.mem_cons.mp h with h1 | h2
      · exact h1 ▸ List.mem_cons_self b rest
      · exact List.mem_cons_of_mem b (ih _ h2)

/-- Claim C8: every article emitted by the listing extraction has a
non-empty headline carrying no restricted phrase, a non-empty link, a
non-empty timestamp that passed the in-page 3-day recency check at
extraction time, and a non-empty provider that is the resolved provider
text or the default "Unknown". -/
theorem trySelectors_article_invariants (parse : String → Option Int) (now : Int)
    (symbol : String) (cards : List Card) (a : Article)
    (ha : a ∈ trySelectors parse now symbol cards) :
    a.headline ≠ "" ∧
    headlineRestricted a.headline = false ∧
    a.link ≠ "" ∧
    a.timestamp ≠ "" ∧
    inPageRecent now (parse a.timestamp) 3 = true ∧
    a.provider ≠ "" ∧
    (∃ c ∈ cards, extractCard parse now symbol c = some a ∧
      (resolveProvider c.subsProvider = some a.provider ∨
        (resolveProvider c.subsProvider = none ∧ a.provider = "Unknown"))) := by
  unfold trySelectors dedupe at ha
  have ha2 := mem_of_mem_dedupeGo _ _ ha
  obtain ⟨c, hcmem, hc⟩ := List.mem_filterMap.mp ha2
  have hc0 := hc
  unfold extractCard at hc
  cases hH : resolveHeadline c with
  | none => simp only [hH] at hc; exact Option.noConfusion hc
  | some headline =>
    simp only [hH] at hc
    by_cases hR : headlineRestricted headline = true
    · rw [if_pos hR] at hc; simp at hc
    · rw [if_neg hR] at hc
      cases hL : resolveLink c with
      | none => simp only [hL] at hc; exact Option.noConfusion hc
      | some link =>
        simp only [hL] at hc
        cases hT : resolveTimestamp c with
        | none => simp only [hT] at hc; exact Option.noConfusion hc
        | some ts =>
          simp only [hT] at hc
          by_cases hRec : inPageRecent now (parse ts) 3 = true
          · rw [if_pos hRec] at hc
            injection hc with hc1
            subst hc1
            refine ⟨resolveHeadline_ne_empty hH, Bool.not_eq_true _ ▸ hR, ?_, ?_, hRec, ?_, ?_⟩
            · exact firstTruthy_ne_empty hL
            · exact resolveTimestamp_ne_empty hT
            · cases hP : resolveProvider c.subsProvider with
              | some p =>
                simp only [hP, Option.getD_some]
                exact firstTruthy_ne_empty hP
              | none =>
                simp only [hP, Option.getD_none]
                decide
            · refine ⟨c, hcmem, hc0, ?_⟩
              cases hP : resolveProvider c.subsProvider with
              | some p => left; simp [hP]
              | none => right; simp [hP]
          · rw [if_neg hRec] at hc; simp at hc

/-- Witness for C8: a concrete card with a tooltip headline, a provider
element, an own `href` and a parseable fresh timestamp is extracted, and
the invariants hold for the emitted article. -/
theorem trySelectors_article_invariants_witness :
    (Article.mk "Big Headline" "Reuters" "2024-01-01T00:00:00Z"
      "https://ex.com/a" "TCS").headline ≠ "" ∧
    (Article.mk "Big Headline" "Reuters" "2024-01-01T00:00:00Z"
      "https://ex.com/a" "TCS").provider ≠ "" :=
  (fun thm => ⟨thm.1, thm.2.2.2.2.2.1⟩)
    (trySelectors_article_invariants
      (fun s => if s = "2024-01-01T00:00:00Z" then some (0 : Int) else none) 0 "TCS"
      [Card.mk [some (SubEl.mk (some "Big Headline") none none)]
        (SubEl.mk none none none) [some "Reuters"] (some "https://ex.com/a")
        none none [some (TimeEl.mk (some "2024-01-01T00:00:00Z") none none none)] []]
      (Article.mk "Big Headline" "Reuters" "2024-01-01T00:00:00Z"
        "https://ex.com/a" "TCS")
      (by decide))

end Scraper
